import Mathlib

/-!
Shallow embedding of the REMI backend (`src/server.js`, variant A, and
`src/unnamed/part_000`, variant B).  JavaScript/JSON values are modelled by
`JsVal`; the external Record Store and Identity Verifier are modelled as
explicit environments; the six record accessors, the authentication
middleware and the `/ask` handler are translated function by function.
Fetch-style effects are made observable through an explicit `Eff` trace so
that claims about "no fetch happened" are statable.
-/

/-- JavaScript values as they occur in this program: JSON data plus
`undefined` and native time values (Firestore `Timestamp` / JS `Date`,
both modelled as an epoch number via the `time` constructor). -/
inductive JsVal where
  | undef : JsVal
  | null : JsVal
  | bool : Bool → JsVal
  | num : Int → JsVal
  | str : String → JsVal
  | time : Int → JsVal
  | arr : List JsVal → JsVal
  | obj : List (String × JsVal) → JsVal

/-- JavaScript truthiness: `undefined`, `null`, `false`, `0` and `""` are
falsy; every object and array (empty or not) is truthy. -/
def jsTruthy : JsVal → Bool
  | .undef => false
  | .null => false
  | .bool b => b
  | .num n => n != 0
  | .str s => s != ""
  | .time _ => true
  | .arr _ => true
  | .obj _ => true

/-- Property lookup on an object's field list (`o.k`); `undefined` when the
key is absent. -/
def getField : List (String × JsVal) → String → JsVal
  | [], _ => .undef
  | (k, v) :: rest, key => if k = key then v else getField rest key

/-- Property access on an arbitrary value, for places where the code reads a
field of a value it knows is not `null`/`undefined` (e.g. `profile.nickname`
behind a truthiness guard): objects yield the field, primitives yield
`undefined`. -/
def jsProp (v : JsVal) (k : String) : JsVal :=
  match v with
  | .undef | .null | .bool _ | .num _ | .str _ | .time _ | .arr _ => .undef
  | .obj fs => getField fs k

/-- JavaScript `a || b`. -/
def jsOr (a b : JsVal) : JsVal := if jsTruthy a then a else b

def isUndef : JsVal → Bool
  | .undef => true
  | _ => false

/-- Property access that can throw, modelling `x.k` where `x` may be
`undefined` or `null` (a `TypeError` whose message becomes `err.message`). -/
def jsMember : JsVal → String → Except String JsVal
  | .undef, k => .error ("Cannot read properties of undefined (reading " ++ k ++ ")")
  | .null, k => .error ("Cannot read properties of null (reading " ++ k ++ ")")
  | .bool _, _ | .num _, _ | .str _, _ | .time _, _ | .arr _, _ => .ok .undef
  | .obj fs, k => .ok (getField fs k)

/-- Index access `x[0]`, throwing on `undefined`/`null`. -/
def jsIndexZero : JsVal → Except String JsVal
  | .undef => .error "Cannot read properties of undefined (reading 0)"
  | .null => .error "Cannot read properties of null (reading 0)"
  | .arr [] => .ok .undef
  | .arr (x :: _) => .ok x
  | .obj fs => .ok (getField fs "0")
  | .bool _ | .num _ | .time _ => .ok .undef
  | .str s =>
    match s.toList with
    | [] => .ok .undef
    | c :: _ => .ok (.str (String.singleton c))

/-- Result of `firestore.collection("users").doc(userId).get()`: the document
exists with the given data, does not exist, or the fetch throws. -/
inductive DocFetch where
  | found : List (String × JsVal) → DocFetch
  | missing : DocFetch
  | fail : String → DocFetch

/-- Result of the `chat_history` sub-collection query: the raw stored chat
documents (unordered; ordering and limiting are applied by the query
semantics below), or a thrown fetch error. -/
inductive ChatFetch where
  | docs : List (List (String × JsVal)) → ChatFetch
  | fail : String → ChatFetch

/-- The external Record Store (Firestore), keyed by user id. -/
structure Store where
  userDoc : String → DocFetch
  chatDocs : String → ChatFetch

/-- Observable data-layer / upstream effects of one request. -/
inductive Eff where
  | fetchProfile
  | fetchTimetable
  | fetchExams
  | fetchGPA
  | fetchUnits
  | fetchChats
  | completionCall
deriving DecidableEq

/-! The six record accessors.

Each accessor returns its value together with the list of store accesses it
performed.  Every accessor is a total Lean function: by construction it
returns a value and never raises to its caller. -/

/-- Accessor `getUserData` of `src/server.js` (variant A): no falsy-id guard, the
fetch is always attempted; the whole document, or `null` on absence or any
fetch error. -/
def getUserDataA (store : Store) (userId : String) : JsVal × List Eff :=
  match store.userDoc userId with
  | .found d => (.obj d, [.fetchProfile])
  | .missing => (.null, [.fetchProfile])
  | .fail _ => (.null, [.fetchProfile])

/-- Accessor `getUserData` of `src/unnamed/part_000` (variant B): `if (!userId)
return null` short-circuits a falsy (empty) user id before any fetch. -/
def getUserDataB (store : Store) (userId : String) : JsVal × List Eff :=
  if userId = "" then (.null, [])
  else
    match store.userDoc userId with
    | .found d => (.obj d, [.fetchProfile])
    | .missing => (.null, [.fetchProfile])
    | .fail _ => (.null, [.fetchProfile])

/-- Accessor `getTimetable` (identical in both variants): `doc.data().timetable || {}`
when the document exists, `{}` on absence or fetch error. -/
def getTimetable (store : Store) (userId : String) : JsVal × List Eff :=
  match store.userDoc userId with
  | .found d => (jsOr (getField d "timetable") (.obj []), [.fetchTimetable])
  | .missing => (.obj [], [.fetchTimetable])
  | .fail _ => (.obj [], [.fetchTimetable])

/-- Accessor `getExams`: `doc.data().exams || []`, `[]` on absence or fetch error. -/
def getExams (store : Store) (userId : String) : JsVal × List Eff :=
  match store.userDoc userId with
  | .found d => (jsOr (getField d "exams") (.arr []), [.fetchExams])
  | .missing => (.arr [], [.fetchExams])
  | .fail _ => (.arr [], [.fetchExams])

/-- Accessor `getGPA`: `doc.data().gpa_data || {}`, `{}` on absence or fetch error. -/
def getGPA (store : Store) (userId : String) : JsVal × List Eff :=
  match store.userDoc userId with
  | .found d => (jsOr (getField d "gpa_data") (.obj []), [.fetchGPA])
  | .missing => (.obj [], [.fetchGPA])
  | .fail _ => (.obj [], [.fetchGPA])

/-- Accessor `getCourseUnits`: `doc.data().units || {}`, `{}` on absence or fetch
error. -/
def getCourseUnits (store : Store) (userId : String) : JsVal × List Eff :=
  match store.userDoc userId with
  | .found d => (jsOr (getField d "units") (.obj []), [.fetchUnits])
  | .missing => (.obj [], [.fetchUnits])
  | .fail _ => (.obj [], [.fetchUnits])

/-! Chat history.

The `chat_history` sub-collection query (`orderBy("timestamp", "desc")
.limit(5)`) is external Record Store behaviour; it is modelled as sorting
the stored documents descending under Firestore's total order on the
`timestamp` field values (values of distinct runtime types are ordered by a
type rank, numeric/time values by their magnitude) and taking the first 5.
The projection mirrors `{ message, isUser, timestamp:
d.data().timestamp?.toDate?.() || new Date() }`. -/

/-- A chat document's data object. -/
abbrev ChatDoc := List (String × JsVal)

/-- Conversion `v?.toDate?.()`: only a native time value has a `toDate`; everything
else yields `undefined` (hence the `|| new Date()` default fires). -/
def tsToDate : JsVal → Option Int
  | .time t => some t
  | _ => none

/-- Type rank of a stored `timestamp` field value in the store's ordering. -/
def tsRank : JsVal → Nat
  | .undef => 0
  | .null => 1
  | .bool _ => 2
  | .num _ => 3
  | .time _ => 4
  | .str _ => 5
  | .arr _ => 6
  | .obj _ => 7

/-- Within-rank magnitude used by the store's ordering. -/
def tsSub : JsVal → Int
  | .bool b => if b then 1 else 0
  | .num n => n
  | .time t => t
  | _ => 0

/-- The store's total order on `timestamp` field values. -/
def tsLe (a b : JsVal) : Bool :=
  if tsRank a < tsRank b then true
  else if tsRank b < tsRank a then false
  else decide (tsSub a ≤ tsSub b)

/-- The `timestamp` field of a stored chat document. -/
def docTs (d : ChatDoc) : JsVal := getField d "timestamp"

/-- Insert a document into a list sorted descending by `timestamp`. -/
def insertByTs (d : ChatDoc) : List ChatDoc → List ChatDoc
  | [] => [d]
  | e :: rest =>
    if tsLe (docTs e) (docTs d) then d :: e :: rest else e :: insertByTs d rest

/-- Sort chat documents descending by `timestamp` (the store's
`orderBy("timestamp", "desc")`). -/
def sortByTsDesc : List ChatDoc → List ChatDoc
  | [] => []
  | d :: ds => insertByTs d (sortByTsDesc ds)

/-- The entry built from one returned chat document: exactly the fields
`message`, `isUser` and `timestamp`, the latter converted via `toDate` and
defaulted to the current time when the stored value is absent or not
convertible. -/
def projectChat (now : Int) (d : ChatDoc) : List (String × JsVal) :=
  [("message", getField d "message"),
   ("isUser", getField d "isUser"),
   ("timestamp", .time ((tsToDate (docTs d)).getD now))]

/-- The entry list produced by `getChatHistory` before wrapping: query
(sort descending, limit 5), then per-document projection. -/
def chatEntries (store : Store) (userId : String) (now : Int) :
    List (List (String × JsVal)) :=
  match store.chatDocs userId with
  | .fail _ => []
  | .docs ds => ((sortByTsDesc ds).take 5).map (projectChat now)

/-- Accessor `getChatHistory` (identical in both variants): the projected entry
array, or `[]` on any fetch error. -/
def getChatHistory (store : Store) (userId : String) (now : Int) :
    JsVal × List Eff :=
  (.arr ((chatEntries store userId now).map .obj), [.fetchChats])

/-! Formatted serialization, `JSON.stringify(v, null, 2)`.

A model of the platform's formatted JSON serializer as used in the prompt
templates: 2-space indentation, object fields with `undefined` values
dropped, `undefined` array elements rendered as `null`, native time values
rendered through `timeJson` (an abstraction of `Date.toJSON`'s ISO output),
`JSON.stringify(undefined)` rendering as `undefined` in a template. -/

/-- Abstract rendering of a native time value inside serialized JSON. -/
def timeJson (t : Int) : String := "date-" ++ toString t

def jsonEscapeChar (c : Char) : String :=
  if c = '"' then "\\\""
  else if c = '\\' then "\\\\"
  else if c = '\n' then "\\n"
  else if c = '\t' then "\\t"
  else if c = '\r' then "\\r"
  else String.singleton c

def jsonEscape (s : String) : String :=
  String.join (s.toList.map jsonEscapeChar)

def spaces (n : Nat) : String := String.mk (List.replicate n ' ')

/-- Object fields whose value is `undefined` are not serialized. -/
def dropUndef (fs : List (String × JsVal)) : List (String × JsVal) :=
  fs.filter fun kv => !(isUndef kv.2)

mutual

def jsonRender (i : Nat) : JsVal → String
  | .undef => "undefined"
  | .null => "null"
  | .bool b => if b then "true" else "false"
  | .num n => toString n
  | .str s => "\"" ++ jsonEscape s ++ "\""
  | .time t => "\"" ++ timeJson t ++ "\""
  | .arr xs =>
    if xs.isEmpty then "[]"
    else "[\n" ++ jsonRenderItems (i + 2) xs ++ "\n" ++ spaces i ++ "]"
  | .obj fs =>
    if (dropUndef fs).isEmpty then "\x7b\x7d"
    else "\x7b\n" ++ jsonRenderFields (i + 2) fs ++ "\n" ++ spaces i ++ "\x7d"

def jsonRenderItems (i : Nat) : List JsVal → String
  | [] => ""
  | x :: xs =>
    spaces i ++ (if isUndef x then "null" else jsonRender i x) ++
      (if xs.isEmpty then "" else ",\n") ++ jsonRenderItems i xs

def jsonRenderFields (i : Nat) : List (String × JsVal) → String
  | [] => ""
  | (k, v) :: fs =>
    if isUndef v then jsonRenderFields i fs
    else
      spaces i ++ "\"" ++ jsonEscape k ++ "\": " ++ jsonRender i v ++
        (if (dropUndef fs).isEmpty then "" else ",\n") ++ jsonRenderFields i fs

end

/-- Model of `JSON.stringify(v, null, 2)`. -/
def stringify (v : JsVal) : String := jsonRender 0 v

/-! Wire form of a JSON response.

`res.json(body)` serializes the body with `JSON.stringify`; what the caller
receives after parsing is the body with `undefined`-valued object fields
removed, `undefined` array elements replaced by `null`, and time values
turned into strings. -/

mutual

def toWire : JsVal → JsVal
  | .undef => .null
  | .null => .null
  | .bool b => .bool b
  | .num n => .num n
  | .str s => .str s
  | .time t => .str (timeJson t)
  | .arr xs => .arr (toWireArr xs)
  | .obj fs => .obj (toWireObj fs)

def toWireArr : List JsVal → List JsVal
  | [] => []
  | x :: xs => (if isUndef x then .null else toWire x) :: toWireArr xs

def toWireObj : List (String × JsVal) → List (String × JsVal)
  | [] => []
  | (k, v) :: fs =>
    if isUndef v then toWireObj fs else (k, toWire v) :: toWireObj fs

end

/-- The keys of an object value (used to speak about which fields a
response object contains). -/
def objKeys : JsVal → List String
  | .obj fs => fs.map Prod.fst
  | _ => []

/-! Prompt construction, profile reduction, completion call, handlers. -/

/-- Reduction `profile ? {nickname, course, current_semester,
total_semesters} : {}` — a four-key object literal whose values are the
(possibly `undefined`) corresponding fields of the stored document. -/
def formatProfile (profile : JsVal) : JsVal :=
  if jsTruthy profile then
    .obj [("nickname", jsProp profile "nickname"),
          ("course", jsProp profile "course"),
          ("current_semester", jsProp profile "current_semester"),
          ("total_semesters", jsProp profile "total_semesters")]
  else .obj []

/-- System prompt template of `src/server.js` (variant A), written as the
right-nested concatenation of its literal chunks and interpolations. -/
def systemPromptA (ugTime iso : String)
    (profile timetable exams gpa units chats : JsVal) : String :=
  "\nYou are REMI — a friendly academic assistant.\n\nYou may use the user’s academic data **only if their question is academic**.\n\nFor general questions (life, science, date, time, advice, etc.) answer normally.\n\n📌 **Current Date & Time Info (Uganda):**\n- Full Date & Time: " ++
  (ugTime ++
  ("\n- ISO: " ++
  (iso ++
  ("\n\n📌 USER DATA (only use if relevant):\nPROFILE: " ++
  (stringify profile ++
  ("\nTIMETABLE: " ++
  (stringify timetable ++
  ("\nEXAMS: " ++
  (stringify exams ++
  ("\nGPA: " ++
  (stringify gpa ++
  ("\nCOURSE UNITS: " ++
  (stringify units ++
  ("\nRECENT CHATS: " ++
  (stringify chats ++
  "\n\nRULES:\n1. If data is missing, say it\x27s unavailable.\n2. Do NOT invent academic information.\n3. Keep answers short (1–3 paragraphs).\n4. Friendly & helpful tone.\n")))))))))))))))

/-- System prompt template of `src/unnamed/part_000` (variant B): no
date/time block, different persona and rule wording. -/
def systemPromptB (profile timetable exams gpa units chats : JsVal) : String :=
  "\nYou are REMI — an intelligent student assistant.\nUse only the following data to answer the user\x27s question.\nNever make up information.\n\nPROFILE:\n" ++
  (stringify profile ++
  ("\n\nTIMETABLE:\n" ++
  (stringify timetable ++
  ("\n\nEXAMS:\n" ++
  (stringify exams ++
  ("\n\nGPA:\n" ++
  (stringify gpa ++
  ("\n\nCOURSE UNITS:\n" ++
  (stringify units ++
  ("\n\nRECENT CHATS:\n" ++
  (stringify chats ++
  "\n\nRULES:\n1. If data is missing, politely say you don\x27t have that information.\n2. Never invent information.\n3. Keep answers short (1–3 paragraphs).\n4. Friendly and helpful tone.\n")))))))))))

/-- The single outbound call made to the Completion Client:
`deepseek.chat.completions.create({model, messages: [system, user],
temperature: 0.3, max_tokens: 500})`.  The fixed sampling temperature 0.3
is recorded in tenths. -/
structure CompletionRequest where
  model : String
  systemContent : String
  userContent : JsVal
  temperatureTenths : Nat
  maxTokens : Nat

/-- Outcome of the Completion Client call for this request: a response
value, or a thrown upstream error with its message. -/
inductive CompletionOutcome where
  | ok : JsVal → CompletionOutcome
  | fail : String → CompletionOutcome

/-- Extraction `completion.choices[0].message.content`; a malformed
response makes one of the member accesses throw. -/
def extractAnswer (resp : JsVal) : Except String JsVal := do
  let choices ← jsMember resp "choices"
  let first ← jsIndexZero choices
  let message ← jsMember first "message"
  jsMember message "content"

/-- One HTTP response. -/
structure Response where
  status : Nat
  body : JsVal

/-- Everything external one `/ask` request interacts with: the Record
Store, the Completion Client's outcome, and the current time (its rendered
Uganda-timezone form, its ISO-8601 form, and its epoch value used for
`new Date()` defaults). -/
structure AskEnv where
  store : Store
  completion : CompletionOutcome
  nowUG : String
  nowIso : String
  now : Int

/-- Outcome of running the handler: the response sent, the observable
data-layer effects in order, and the completion request made (if any). -/
structure AskOutcome where
  resp : Response
  effs : List Eff
  sentReq : Option CompletionRequest

/-- Body of the catch clause: HTTP 500 with the underlying message. -/
def aiFailure (msg : String) : Response :=
  ⟨500, .obj [("error", .str "AI processing failed"), ("details", .str msg)]⟩

/-- Handler of `POST /ask` in `src/server.js` (variant A), after
authentication has bound `userId`. -/
def askHandlerA (env : AskEnv) (userId : String)
    (body : List (String × JsVal)) : AskOutcome :=
  let query := getField body "query"
  let timetable := getField body "timetable"
  if jsTruthy query = false then
    ⟨⟨400, .obj [("error", .str "Query is required")]⟩, [], none⟩
  else
    let profile := getUserDataA env.store userId
    let userTimetable :=
      if jsTruthy timetable then (timetable, ([] : List Eff))
      else getTimetable env.store userId
    let exams := getExams env.store userId
    let gpa := getGPA env.store userId
    let courseUnits := getCourseUnits env.store userId
    let lastChats := getChatHistory env.store userId env.now
    let formattedProfile := formatProfile profile.1
    let systemPrompt :=
      systemPromptA env.nowUG env.nowIso formattedProfile userTimetable.1
        exams.1 gpa.1 courseUnits.1 lastChats.1
    let req : CompletionRequest := ⟨"deepseek-chat", systemPrompt, query, 3, 500⟩
    let effs := profile.2 ++ userTimetable.2 ++ exams.2 ++ gpa.2 ++
      courseUnits.2 ++ lastChats.2 ++ [Eff.completionCall]
    match env.completion with
    | .fail msg => ⟨aiFailure msg, effs, some req⟩
    | .ok resp =>
      match extractAnswer resp with
      | .error msg => ⟨aiFailure msg, effs, some req⟩
      | .ok answer =>
        ⟨⟨200, .obj [("answer", answer), ("profile", formattedProfile),
                     ("timetable", userTimetable.1), ("exams", exams.1),
                     ("gpa", gpa.1), ("courseUnits", courseUnits.1)]⟩,
         effs, some req⟩

/-- Handler of `POST /ask` in `src/unnamed/part_000` (variant B):
lower-case validation message, variant-B profile accessor and prompt. -/
def askHandlerB (env : AskEnv) (userId : String)
    (body : List (String × JsVal)) : AskOutcome :=
  let query := getField body "query"
  let timetable := getField body "timetable"
  if jsTruthy query = false then
    ⟨⟨400, .obj [("error", .str "query is required")]⟩, [], none⟩
  else
    let profile := getUserDataB env.store userId
    let userTimetable :=
      if jsTruthy timetable then (timetable, ([] : List Eff))
      else getTimetable env.store userId
    let exams := getExams env.store userId
    let gpa := getGPA env.store userId
    let courseUnits := getCourseUnits env.store userId
    let lastChats := getChatHistory env.store userId env.now
    let formattedProfile := formatProfile profile.1
    let systemPrompt :=
      systemPromptB formattedProfile userTimetable.1
        exams.1 gpa.1 courseUnits.1 lastChats.1
    let req : CompletionRequest := ⟨"deepseek-chat", systemPrompt, query, 3, 500⟩
    let effs := profile.2 ++ userTimetable.2 ++ exams.2 ++ gpa.2 ++
      courseUnits.2 ++ lastChats.2 ++ [Eff.completionCall]
    match env.completion with
    | .fail msg => ⟨aiFailure msg, effs, some req⟩
    | .ok resp =>
      match extractAnswer resp with
      | .error msg => ⟨aiFailure msg, effs, some req⟩
      | .ok answer =>
        ⟨⟨200, .obj [("answer", answer), ("profile", formattedProfile),
                     ("timetable", userTimetable.1), ("exams", exams.1),
                     ("gpa", gpa.1), ("courseUnits", courseUnits.1)]⟩,
         effs, some req⟩

/-! Authentication middleware and the composed route. -/

/-- Check that `p` is an initial segment of `l` (character lists). -/
def leadsWith : List Char → List Char → Bool
  | [], _ => true
  | _ :: _, [] => false
  | p :: ps, c :: cs => p == c && leadsWith ps cs

/-- JavaScript `s.startsWith(p)`. -/
def strStarts (s p : String) : Bool := leadsWith p.toList s.toList

/-- Characters of `l` strictly before the first occurrence of `sep`. -/
def upTo (sep : List Char) : List Char → List Char
  | [] => []
  | c :: cs => if leadsWith sep (c :: cs) then [] else c :: upTo sep cs

/-- Substring occurrence test (used to state what a prompt does or does
not contain). -/
def hasSubChars (pat : List Char) : List Char → Bool
  | [] => leadsWith pat []
  | c :: cs => leadsWith pat (c :: cs) || hasSubChars pat cs

/-- Whether `pat` occurs as a substring of `s`. -/
def hasSubstr (s pat : String) : Bool := hasSubChars pat.toList s.toList

/-- The external Identity Verifier: `admin.auth().verifyIdToken(token)`. -/
structure AuthEnv where
  verifyToken : String → Except String String

/-- Token extraction `authHeader.split("Bearer ")[1]`: under the
`startsWith("Bearer ")` guard this is the text after the leading
`"Bearer "` and before any further occurrence of `"Bearer "`. -/
def bearerToken (h : String) : String :=
  String.mk (upTo "Bearer ".toList (h.toList.drop 7))

def noTokenResp : Response :=
  ⟨401, .obj [("error", .str "Unauthorized. No token provided.")]⟩

def invalidTokenResp : Response :=
  ⟨401, .obj [("error", .str "Invalid or expired token.")]⟩

/-- Middleware `authenticateFirebase` (identical in both variants): yields
the verified user id, or the 401 response that is sent instead of running
the handler. -/
def authenticateFirebase (aenv : AuthEnv) (authHeader : Option String) :
    Except Response String :=
  match authHeader with
  | none => .error noTokenResp
  | some h =>
    if strStarts h "Bearer " then
      match aenv.verifyToken (bearerToken h) with
      | .ok uid => .ok uid
      | .error _ => .error invalidTokenResp
    else .error noTokenResp

/-- The composed `POST /ask` route of variant A: middleware, then handler. -/
def askRouteA (aenv : AuthEnv) (env : AskEnv) (authHeader : Option String)
    (body : List (String × JsVal)) : AskOutcome :=
  match authenticateFirebase aenv authHeader with
  | .error resp => ⟨resp, [], none⟩
  | .ok uid => askHandlerA env uid body

/-- The composed `POST /ask` route of variant B. -/
def askRouteB (aenv : AuthEnv) (env : AskEnv) (authHeader : Option String)
    (body : List (String × JsVal)) : AskOutcome :=
  match authenticateFirebase aenv authHeader with
  | .error resp => ⟨resp, [], none⟩
  | .ok uid => askHandlerB env uid body

/-! Shared concrete fixtures for witnesses and counterexamples. -/

/-- A store whose every fetch throws. -/
def storeFailing : Store := ⟨fun _ => .fail "boom", fun _ => .fail "boom"⟩

/-- A store holding no documents at all. -/
def storeEmpty : Store := ⟨fun _ => .missing, fun _ => .docs []⟩

/-- A well-formed Completion Client response whose answer is `"ok"`. -/
def okCompletion : CompletionOutcome :=
  .ok (.obj [("choices",
    .arr [.obj [("message", .obj [("content", .str "ok")])]])])

/-- An environment over the empty store with a failing completion call. -/
def envEmptyStore : AskEnv := ⟨storeEmpty, .fail "upstream down", "ug", "iso", 0⟩

/-- A concrete Identity Verifier accepting exactly the token `"tok"`. -/
def authEnvW : AuthEnv :=
  ⟨fun t => if t = "tok" then .ok "u1" else .error "bad"⟩

/-- A store holding a timetable for every user. -/
def c2Store : Store :=
  ⟨fun _ => .found [("timetable", .obj [("mon", .str "math")])],
   fun _ => .docs []⟩

def c2Env : AskEnv := ⟨c2Store, okCompletion, "ug", "iso", 0⟩

/-- A body that supplies `timetable: false` — the field is present but
falsy. -/
def c2Body : List (String × JsVal) :=
  [("query", .str "hi"), ("timetable", .bool false)]

/-- A body supplying a truthy `timetable` override. -/
def c2BodyT : List (String × JsVal) :=
  [("query", .str "hi"), ("timetable", .obj [("tue", .str "bio")])]

/-- A store that (like the real client) throws on the empty document id
and otherwise has no documents. -/
def c7Store : Store :=
  ⟨fun u => if u = "" then .fail "invalid document path" else .missing,
   fun _ => .docs []⟩

/-- Six stored chat documents, including one with no `timestamp` and one
whose `timestamp` is not convertible to a time value. -/
def c5Docs : List ChatDoc :=
  [[("message", .str "m1"), ("isUser", .bool true), ("timestamp", .time 100)],
   [("message", .str "m2"), ("isUser", .bool false), ("timestamp", .time 300)],
   [("message", .str "m3"), ("isUser", .bool true)],
   [("message", .str "m4"), ("isUser", .bool false), ("timestamp", .str "oops")],
   [("message", .str "m5"), ("isUser", .bool true), ("timestamp", .time 200)],
   [("message", .str "m6"), ("isUser", .bool false), ("timestamp", .time 50)]]

def c5Store : Store := ⟨fun _ => .missing, fun _ => .docs c5Docs⟩

/-- The four whitelisted profile fields. -/
def profileWhitelist : List String :=
  ["nickname", "course", "current_semester", "total_semesters"]

/-- A store whose profile document carries one whitelisted field and one
extra field. -/
def c6Store : Store :=
  ⟨fun _ => .found [("nickname", .str "Sam"), ("extra", .str "x")],
   fun _ => .docs []⟩

def c6Env : AskEnv := ⟨c6Store, okCompletion, "ug", "iso", 0⟩

def c6Body : List (String × JsVal) := [("query", .str "hi")]

/-- Statement that the given parts occur, in order, inside a string. -/
def occursInOrderFrom : List String → String → Prop
  | [], _ => True
  | p :: ps, s => ∃ a b, s = a ++ (p ++ b) ∧ occursInOrderFrom ps b

/-- A concrete environment carrying the request's current time. -/
def c8Env : AskEnv :=
  ⟨storeEmpty, okCompletion, "Saturday, October 11, 2026",
   "2026-10-11T00:00:00.000Z", 0⟩

/-- C1: for every user identifier, when the Record Store reports the
document absent or the fetch throws, each of the six accessors
(`getUserData` in both variants, `getTimetable`, `getExams`, `getGPA`,
`getCourseUnits`, `getChatHistory`) returns its category's well-typed
empty default (`null`, `{}`, `[]`, `{}`, `{}`, `[]`); being total
functions into values, the accessors never raise to their caller. -/
theorem claim1_accessor_defaults (store : Store) (uid : String) (now : Int) :
    (∀ msg, store.userDoc uid = DocFetch.fail msg →
      (getUserDataA store uid).1 = JsVal.null ∧
      (getUserDataB store uid).1 = JsVal.null ∧
      (getTimetable store uid).1 = JsVal.obj [] ∧
      (getExams store uid).1 = JsVal.arr [] ∧
      (getGPA store uid).1 = JsVal.obj [] ∧
      (getCourseUnits store uid).1 = JsVal.obj []) ∧
    (store.userDoc uid = DocFetch.missing →
      (getUserDataA store uid).1 = JsVal.null ∧
      (getUserDataB store uid).1 = JsVal.null ∧
      (getTimetable store uid).1 = JsVal.obj [] ∧
      (getExams store uid).1 = JsVal.arr [] ∧
      (getGPA store uid).1 = JsVal.obj [] ∧
      (getCourseUnits store uid).1 = JsVal.obj []) ∧
    (∀ msg, store.chatDocs uid = ChatFetch.fail msg →
      (getChatHistory store uid now).1 = JsVal.arr []) := by
  refine ⟨fun msg h => ?_, fun h => ?_, fun msg h => ?_⟩
  · simp [getUserDataA, getUserDataB, getTimetable, getExams, getGPA,
      getCourseUnits, h]
    split <;> rfl
  · simp [getUserDataA, getUserDataB, getTimetable, getExams, getGPA,
      getCourseUnits, h]
    split <;> rfl
  · simp [getChatHistory, chatEntries, h]

/-- Witness for C1 at the throwing store and at the empty store. -/
theorem claim1_accessor_defaults_witness :
    ((getUserDataA storeFailing "u").1 = JsVal.null ∧
      (getUserDataB storeFailing "u").1 = JsVal.null ∧
      (getTimetable storeFailing "u").1 = JsVal.obj [] ∧
      (getExams storeFailing "u").1 = JsVal.arr [] ∧
      (getGPA storeFailing "u").1 = JsVal.obj [] ∧
      (getCourseUnits storeFailing "u").1 = JsVal.obj []) ∧
    ((getUserDataA storeEmpty "u").1 = JsVal.null ∧
      (getUserDataB storeEmpty "u").1 = JsVal.null ∧
      (getTimetable storeEmpty "u").1 = JsVal.obj [] ∧
      (getExams storeEmpty "u").1 = JsVal.arr [] ∧
      (getGPA storeEmpty "u").1 = JsVal.obj [] ∧
      (getCourseUnits storeEmpty "u").1 = JsVal.obj []) ∧
    (getChatHistory storeFailing "u" 0).1 = JsVal.arr [] :=
  ⟨(claim1_accessor_defaults storeFailing "u" 0).1 "boom" rfl,
   (claim1_accessor_defaults storeEmpty "u" 0).2.1 rfl,
   (claim1_accessor_defaults storeFailing "u" 0).2.2 "boom" rfl⟩

/-- C3: a request body whose `query` field is absent or the empty string
is answered HTTP 400 with the variant's error body, with no Record Store
fetch and no Completion Client call (empty effect trace, no request). -/
theorem claim3_missing_query_rejected (env : AskEnv) (uid : String)
    (body : List (String × JsVal))
    (h : getField body "query" = JsVal.undef ∨
      getField body "query" = JsVal.str "") :
    askHandlerA env uid body =
      ⟨⟨400, .obj [("error", .str "Query is required")]⟩, [], none⟩ ∧
    askHandlerB env uid body =
      ⟨⟨400, .obj [("error", .str "query is required")]⟩, [], none⟩ := by
  have hq : jsTruthy (getField body "query") = false := by
    rcases h with h | h <;> rw [h] <;> rfl
  constructor
  · simp [askHandlerA, hq]
  · simp [askHandlerB, hq]

/-- Witness for C3: a body with no `query` key at all. -/
theorem claim3_missing_query_rejected_witness :
    askHandlerA envEmptyStore "u" [("topic", JsVal.str "math")] =
      ⟨⟨400, .obj [("error", .str "Query is required")]⟩, [], none⟩ ∧
    askHandlerB envEmptyStore "u" [("topic", JsVal.str "math")] =
      ⟨⟨400, .obj [("error", .str "query is required")]⟩, [], none⟩ :=
  claim3_missing_query_rejected envEmptyStore "u" _ (Or.inl rfl)

/-- C10 (implicit): the `if (!query)` validation rejects every falsy
`query` value — not only absent or empty-string, but also `0`, `false`
and `null` — with HTTP 400 and no fetch and no completion call. -/
theorem claim10_falsy_query_rejected (env : AskEnv) (uid : String)
    (body : List (String × JsVal))
    (h : jsTruthy (getField body "query") = false) :
    askHandlerA env uid body =
      ⟨⟨400, .obj [("error", .str "Query is required")]⟩, [], none⟩ ∧
    askHandlerB env uid body =
      ⟨⟨400, .obj [("error", .str "query is required")]⟩, [], none⟩ := by
  constructor
  · simp [askHandlerA, h]
  · simp [askHandlerB, h]

/-- Witness for C10: `query: 0` is present in the body yet refused. -/
theorem claim10_falsy_query_rejected_witness :
    askHandlerA envEmptyStore "u" [("query", JsVal.num 0)] =
      ⟨⟨400, .obj [("error", .str "Query is required")]⟩, [], none⟩ ∧
    askHandlerB envEmptyStore "u" [("query", JsVal.num 0)] =
      ⟨⟨400, .obj [("error", .str "query is required")]⟩, [], none⟩ :=
  claim10_falsy_query_rejected envEmptyStore "u" _ (by rfl)

/-- C4: the authentication gate on `/ask`.  A missing header or one not
starting with `"Bearer "` yields the 401 no-token response with no
downstream effect; a token the verifier rejects yields the 401
invalid-token response with no downstream effect; a verified token binds
the verifier's user identifier and runs the handler, in both variants. -/
theorem claim4_auth_gate (aenv : AuthEnv) (env : AskEnv)
    (header : Option String) (body : List (String × JsVal)) :
    (header = none →
      askRouteA aenv env header body = ⟨noTokenResp, [], none⟩ ∧
      askRouteB aenv env header body = ⟨noTokenResp, [], none⟩) ∧
    (∀ h, header = some h → strStarts h "Bearer " = false →
      askRouteA aenv env header body = ⟨noTokenResp, [], none⟩ ∧
      askRouteB aenv env header body = ⟨noTokenResp, [], none⟩) ∧
    (∀ h msg, header = some h → strStarts h "Bearer " = true →
      aenv.verifyToken (bearerToken h) = .error msg →
      askRouteA aenv env header body = ⟨invalidTokenResp, [], none⟩ ∧
      askRouteB aenv env header body = ⟨invalidTokenResp, [], none⟩) ∧
    (∀ h uid, header = some h → strStarts h "Bearer " = true →
      aenv.verifyToken (bearerToken h) = .ok uid →
      askRouteA aenv env header body = askHandlerA env uid body ∧
      askRouteB aenv env header body = askHandlerB env uid body) := by
  refine ⟨fun hh => ?_, fun h hh hs => ?_, fun h msg hh hs hv => ?_,
    fun h uid hh hs hv => ?_⟩
  · subst hh
    exact ⟨rfl, rfl⟩
  · subst hh
    constructor <;> simp [askRouteA, askRouteB, authenticateFirebase, hs]
  · subst hh
    constructor <;> simp [askRouteA, askRouteB, authenticateFirebase, hs, hv]
  · subst hh
    constructor <;> simp [askRouteA, askRouteB, authenticateFirebase, hs, hv]

/-- Witness for C4: all four middleware branches at concrete headers. -/
theorem claim4_auth_gate_witness :
    (askRouteA authEnvW envEmptyStore none [] = ⟨noTokenResp, [], none⟩ ∧
      askRouteB authEnvW envEmptyStore none [] = ⟨noTokenResp, [], none⟩) ∧
    (askRouteA authEnvW envEmptyStore (some "Basic abc") [] =
        ⟨noTokenResp, [], none⟩ ∧
      askRouteB authEnvW envEmptyStore (some "Basic abc") [] =
        ⟨noTokenResp, [], none⟩) ∧
    (askRouteA authEnvW envEmptyStore (some "Bearer zzz") [] =
        ⟨invalidTokenResp, [], none⟩ ∧
      askRouteB authEnvW envEmptyStore (some "Bearer zzz") [] =
        ⟨invalidTokenResp, [], none⟩) ∧
    (askRouteA authEnvW envEmptyStore (some "Bearer tok") [] =
        askHandlerA envEmptyStore "u1" [] ∧
      askRouteB authEnvW envEmptyStore (some "Bearer tok") [] =
        askHandlerB envEmptyStore "u1" []) :=
  ⟨(claim4_auth_gate authEnvW envEmptyStore none []).1 rfl,
   (claim4_auth_gate authEnvW envEmptyStore (some "Basic abc") []).2.1
     "Basic abc" rfl rfl,
   (claim4_auth_gate authEnvW envEmptyStore (some "Bearer zzz") []).2.2.1
     "Bearer zzz" "bad" rfl rfl rfl,
   (claim4_auth_gate authEnvW envEmptyStore (some "Bearer tok") []).2.2.2
     "Bearer tok" "u1" rfl rfl rfl⟩

/-! Helper lemmas about effect traces. -/

theorem count_cc_getUserDataA (s : Store) (u : String) :
    ((getUserDataA s u).2).count Eff.completionCall = 0 := by
  unfold getUserDataA
  split <;> rfl

theorem count_cc_getUserDataB (s : Store) (u : String) :
    ((getUserDataB s u).2).count Eff.completionCall = 0 := by
  unfold getUserDataB
  split
  · rfl
  · split <;> rfl

theorem count_cc_getTimetable (s : Store) (u : String) :
    ((getTimetable s u).2).count Eff.completionCall = 0 := by
  unfold getTimetable
  split <;> rfl

theorem count_cc_getExams (s : Store) (u : String) :
    ((getExams s u).2).count Eff.completionCall = 0 := by
  unfold getExams
  split <;> rfl

theorem count_cc_getGPA (s : Store) (u : String) :
    ((getGPA s u).2).count Eff.completionCall = 0 := by
  unfold getGPA
  split <;> rfl

theorem count_cc_getCourseUnits (s : Store) (u : String) :
    ((getCourseUnits s u).2).count Eff.completionCall = 0 := by
  unfold getCourseUnits
  split <;> rfl

theorem count_cc_getChatHistory (s : Store) (u : String) (n : Int) :
    ((getChatHistory s u n).2).count Eff.completionCall = 0 := rfl

/-- C9: once a request passes validation, an upstream completion failure
or a malformed completion response (failed answer extraction) yields the
single HTTP 500 response `{error: "AI processing failed", details:
<underlying message>}` in both variants; the Completion Client is invoked
exactly once — no retry. -/
theorem claim9_error_boundary (env : AskEnv) (uid : String)
    (body : List (String × JsVal))
    (hq : jsTruthy (getField body "query") = true) :
    (∀ msg, env.completion = CompletionOutcome.fail msg →
      (askHandlerA env uid body).resp =
        ⟨500, .obj [("error", .str "AI processing failed"),
                    ("details", .str msg)]⟩ ∧
      (askHandlerB env uid body).resp =
        ⟨500, .obj [("error", .str "AI processing failed"),
                    ("details", .str msg)]⟩) ∧
    (∀ r msg, env.completion = CompletionOutcome.ok r →
      extractAnswer r = .error msg →
      (askHandlerA env uid body).resp =
        ⟨500, .obj [("error", .str "AI processing failed"),
                    ("details", .str msg)]⟩ ∧
      (askHandlerB env uid body).resp =
        ⟨500, .obj [("error", .str "AI processing failed"),
                    ("details", .str msg)]⟩) ∧
    ((askHandlerA env uid body).effs.count Eff.completionCall = 1 ∧
      (askHandlerB env uid body).effs.count Eff.completionCall = 1) := by
  refine ⟨fun msg hc => ?_, fun r msg hc hx => ?_, ?_, ?_⟩
  · constructor <;> simp [askHandlerA, askHandlerB, hq, hc, aiFailure]
  · constructor <;> simp [askHandlerA, askHandlerB, hq, hc, hx, aiFailure]
  · simp only [askHandlerA, hq]
    simp only [Bool.true_eq_false, if_false]
    rcases env.completion with r | msg
    · rcases hx : extractAnswer r with msg | a <;>
        simp [hx, List.count_append, count_cc_getUserDataA,
          count_cc_getTimetable, count_cc_getExams, count_cc_getGPA,
          count_cc_getCourseUnits, count_cc_getChatHistory] <;>
        split <;>
        simp [count_cc_getTimetable]
    · simp [List.count_append, count_cc_getUserDataA,
        count_cc_getTimetable, count_cc_getExams, count_cc_getGPA,
        count_cc_getCourseUnits, count_cc_getChatHistory]
      split <;> simp [count_cc_getTimetable]
  · simp only [askHandlerB, hq]
    simp only [Bool.true_eq_false, if_false]
    rcases env.completion with r | msg
    · rcases hx : extractAnswer r with msg | a <;>
        simp [hx, List.count_append, count_cc_getUserDataB,
          count_cc_getTimetable, count_cc_getExams, count_cc_getGPA,
          count_cc_getCourseUnits, count_cc_getChatHistory] <;>
        split <;>
        simp [count_cc_getTimetable]
    · simp [List.count_append, count_cc_getUserDataB,
        count_cc_getTimetable, count_cc_getExams, count_cc_getGPA,
        count_cc_getCourseUnits, count_cc_getChatHistory]
      split <;> simp [count_cc_getTimetable]

/-- Witness for C9: both failure modes at concrete environments. -/
theorem claim9_error_boundary_witness :
    (askHandlerA envEmptyStore "u" [("query", JsVal.str "hi")]).resp =
      ⟨500, .obj [("error", .str "AI processing failed"),
                  ("details", .str "upstream down")]⟩ ∧
    (askHandlerB envEmptyStore "u" [("query", JsVal.str "hi")]).resp =
      ⟨500, .obj [("error", .str "AI processing failed"),
                  ("details", .str "upstream down")]⟩ ∧
    (askHandlerA ⟨storeEmpty, .ok (.obj [("choices", .arr [])]), "ug", "iso", 0⟩
        "u" [("query", JsVal.str "hi")]).resp =
      ⟨500, .obj [("error", .str "AI processing failed"),
                  ("details", .str "Cannot read properties of undefined (reading message)")]⟩ ∧
    (askHandlerA envEmptyStore "u" [("query", JsVal.str "hi")]).effs.count
      Eff.completionCall = 1 :=
  ⟨(claim9_error_boundary envEmptyStore "u" [("query", JsVal.str "hi")]
      rfl).1 "upstream down" rfl |>.1,
   (claim9_error_boundary envEmptyStore "u" [("query", JsVal.str "hi")]
      rfl).1 "upstream down" rfl |>.2,
   (claim9_error_boundary
      ⟨storeEmpty, .ok (.obj [("choices", .arr [])]), "ug", "iso", 0⟩ "u"
      [("query", JsVal.str "hi")] rfl).2.1 (.obj [("choices", .arr [])])
      "Cannot read properties of undefined (reading message)" rfl rfl |>.1,
   (claim9_error_boundary envEmptyStore "u" [("query", JsVal.str "hi")]
      rfl).2.2.1⟩

theorem effs_getUserDataA (s : Store) (u : String) :
    (getUserDataA s u).2 = [Eff.fetchProfile] := by
  unfold getUserDataA
  split <;> rfl

theorem effs_getUserDataB (s : Store) (u : String) :
    (getUserDataB s u).2 = [] ∨ (getUserDataB s u).2 = [Eff.fetchProfile] := by
  unfold getUserDataB
  split
  · exact Or.inl rfl
  · split <;> exact Or.inr rfl

theorem effs_getTimetable (s : Store) (u : String) :
    (getTimetable s u).2 = [Eff.fetchTimetable] := by
  unfold getTimetable
  split <;> rfl

theorem effs_getExams (s : Store) (u : String) :
    (getExams s u).2 = [Eff.fetchExams] := by
  unfold getExams
  split <;> rfl

theorem effs_getGPA (s : Store) (u : String) :
    (getGPA s u).2 = [Eff.fetchGPA] := by
  unfold getGPA
  split <;> rfl

theorem effs_getCourseUnits (s : Store) (u : String) :
    (getCourseUnits s u).2 = [Eff.fetchUnits] := by
  unfold getCourseUnits
  split <;> rfl

theorem effs_getChatHistory (s : Store) (u : String) (n : Int) :
    (getChatHistory s u n).2 = [Eff.fetchChats] := rfl

/-- Counterexample to C2 as stated: the body contains a `timetable` field
(value `false`), yet the stored timetable is fetched
(`Eff.fetchTimetable` occurs) and the 200 response echoes the stored
value, not the supplied one — `timetable || (await getTimetable(...))`
falls through on every falsy supplied value. -/
theorem claim2_timetable_override_cx :
    (askHandlerA c2Env "u1" c2Body).resp.status = 200 ∧
    getField c2Body "timetable" = JsVal.bool false ∧
    Eff.fetchTimetable ∈ (askHandlerA c2Env "u1" c2Body).effs ∧
    jsProp (askHandlerA c2Env "u1" c2Body).resp.body "timetable" =
      JsVal.obj [("mon", JsVal.str "math")] := by
  refine ⟨rfl, rfl, ?_, rfl⟩
  decide

/-- C2 (amended): if the body's `timetable` value is truthy it is used
verbatim — the stored timetable is not fetched, the prompt is built from
the supplied value, and the 200 response echoes it; if the supplied value
is falsy (absent, `null`, `false`, `0`, `""`) the stored timetable is
fetched and used instead.  Both variants. -/
theorem claim2_timetable_override (env : AskEnv) (uid : String)
    (body : List (String × JsVal))
    (hq : jsTruthy (getField body "query") = true) :
    (jsTruthy (getField body "timetable") = true →
      (Eff.fetchTimetable ∉ (askHandlerA env uid body).effs ∧
        Eff.fetchTimetable ∉ (askHandlerB env uid body).effs) ∧
      (∀ req, (askHandlerA env uid body).sentReq = some req →
        req.systemContent =
          systemPromptA env.nowUG env.nowIso
            (formatProfile (getUserDataA env.store uid).1)
            (getField body "timetable") (getExams env.store uid).1
            (getGPA env.store uid).1 (getCourseUnits env.store uid).1
            (getChatHistory env.store uid env.now).1) ∧
      ((askHandlerA env uid body).resp.status = 200 →
        jsProp (askHandlerA env uid body).resp.body "timetable" =
          getField body "timetable") ∧
      ((askHandlerB env uid body).resp.status = 200 →
        jsProp (askHandlerB env uid body).resp.body "timetable" =
          getField body "timetable")) ∧
    (jsTruthy (getField body "timetable") = false →
      (Eff.fetchTimetable ∈ (askHandlerA env uid body).effs ∧
        Eff.fetchTimetable ∈ (askHandlerB env uid body).effs) ∧
      ((askHandlerA env uid body).resp.status = 200 →
        jsProp (askHandlerA env uid body).resp.body "timetable" =
          (getTimetable env.store uid).1) ∧
      ((askHandlerB env uid body).resp.status = 200 →
        jsProp (askHandlerB env uid body).resp.body "timetable" =
          (getTimetable env.store uid).1)) := by
  constructor
  · intro ht
    refine ⟨⟨?_, ?_⟩, ?_, ?_, ?_⟩
    · simp only [askHandlerA, hq]
      simp only [Bool.true_eq_false, if_false, ht, if_true]
      rcases env.completion with r | msg
      · rcases hx : extractAnswer r with msg | a <;>
          simp [hx, effs_getUserDataA, effs_getExams, effs_getGPA,
            effs_getCourseUnits, effs_getChatHistory]
      · simp [effs_getUserDataA, effs_getExams, effs_getGPA,
          effs_getCourseUnits, effs_getChatHistory]
    · simp only [askHandlerB, hq]
      simp only [Bool.true_eq_false, if_false, ht, if_true]
      rcases effs_getUserDataB env.store uid with hb | hb <;>
        rcases env.completion with r | msg
      · rcases hx : extractAnswer r with msg | a <;>
          simp [hx, hb, effs_getExams, effs_getGPA,
            effs_getCourseUnits, effs_getChatHistory]
      · simp [hb, effs_getExams, effs_getGPA,
          effs_getCourseUnits, effs_getChatHistory]
      · rcases hx : extractAnswer r with msg | a <;>
          simp [hx, hb, effs_getExams, effs_getGPA,
            effs_getCourseUnits, effs_getChatHistory]
      · simp [hb, effs_getExams, effs_getGPA,
          effs_getCourseUnits, effs_getChatHistory]
    · intro req hreq
      revert hreq
      simp only [askHandlerA, hq]
      simp only [Bool.true_eq_false, if_false, ht, if_true]
      rcases env.completion with r | msg
      · rcases hx : extractAnswer r with msg | a <;>
          simp [hx] <;> rintro h' <;> rw [← h']
      · simp
        rintro h'
        rw [← h']
    · simp only [askHandlerA, hq]
      simp only [Bool.true_eq_false, if_false, ht, if_true]
      rcases env.completion with r | msg
      · rcases hx : extractAnswer r with msg | a <;>
          simp [hx, aiFailure, jsProp, getField]
      · simp [aiFailure]
    · simp only [askHandlerB, hq]
      simp only [Bool.true_eq_false, if_false, ht, if_true]
      rcases env.completion with r | msg
      · rcases hx : extractAnswer r with msg | a <;>
          simp [hx, aiFailure, jsProp, getField]
      · simp [aiFailure]
  · intro ht
    refine ⟨⟨?_, ?_⟩, ?_, ?_⟩
    · simp only [askHandlerA, hq]
      simp only [Bool.true_eq_false, if_false, ht, Bool.false_eq_true]
      rcases env.completion with r | msg
      · rcases hx : extractAnswer r with msg | a <;>
          simp [hx, effs_getTimetable]
      · simp [effs_getTimetable]
    · simp only [askHandlerB, hq]
      simp only [Bool.true_eq_false, if_false, ht, Bool.false_eq_true]
      rcases env.completion with r | msg
      · rcases hx : extractAnswer r with msg | a <;>
          simp [hx, effs_getTimetable]
      · simp [effs_getTimetable]
    · simp only [askHandlerA, hq]
      simp only [Bool.true_eq_false, if_false, ht, Bool.false_eq_true]
      rcases env.completion with r | msg
      · rcases hx : extractAnswer r with msg | a <;>
          simp [hx, aiFailure, jsProp, getField]
      · simp [aiFailure]
    · simp only [askHandlerB, hq]
      simp only [Bool.true_eq_false, if_false, ht, Bool.false_eq_true]
      rcases env.completion with r | msg
      · rcases hx : extractAnswer r with msg | a <;>
          simp [hx, aiFailure, jsProp, getField]
      · simp [aiFailure]

/-- Witness for the amended C2: a truthy override is used verbatim
without a timetable fetch, while `timetable: false` falls back to the
fetched stored value. -/
theorem claim2_timetable_override_witness :
    Eff.fetchTimetable ∉ (askHandlerA c2Env "u1" c2BodyT).effs ∧
    jsProp (askHandlerA c2Env "u1" c2BodyT).resp.body "timetable" =
      getField c2BodyT "timetable" ∧
    Eff.fetchTimetable ∈ (askHandlerA c2Env "u1" c2Body).effs ∧
    jsProp (askHandlerA c2Env "u1" c2Body).resp.body "timetable" =
      (getTimetable c2Env.store "u1").1 :=
  ⟨((claim2_timetable_override c2Env "u1" c2BodyT rfl).1 rfl).1.1,
   ((claim2_timetable_override c2Env "u1" c2BodyT rfl).1 rfl).2.2.1 rfl,
   ((claim2_timetable_override c2Env "u1" c2Body rfl).2 rfl).1.1,
   ((claim2_timetable_override c2Env "u1" c2Body rfl).2 rfl).2.1 rfl⟩

/-- Counterexample to C7 as stated: on a falsy user identifier the
`src/server.js` variant of `getUserData` still performs the store fetch
(one `Eff.fetchProfile` access), while only the `part_000` variant
short-circuits without contacting the store. -/
theorem claim7_getUserData_cx :
    (getUserDataA c7Store "").2 = [Eff.fetchProfile] ∧
    (getUserDataA c7Store "").1 = JsVal.null ∧
    (getUserDataB c7Store "").2 = [] :=
  ⟨rfl, rfl, rfl⟩

/-- C7 (amended): `getUserData` returns the whole stored document when it
exists and `null` when it is absent or the fetch throws; the `part_000`
variant additionally short-circuits a falsy user identifier to `null`
without contacting the Record Store, whereas the `server.js` variant
always performs the fetch (returning `null` only because the resulting
error is swallowed or the document is absent). -/
theorem claim7_getUserData (store : Store) (uid : String) :
    (∀ d, store.userDoc uid = DocFetch.found d →
      (getUserDataA store uid).1 = JsVal.obj d ∧
      (uid ≠ "" → (getUserDataB store uid).1 = JsVal.obj d)) ∧
    (store.userDoc uid = DocFetch.missing →
      (getUserDataA store uid).1 = JsVal.null ∧
      (getUserDataB store uid).1 = JsVal.null) ∧
    (∀ msg, store.userDoc uid = DocFetch.fail msg →
      (getUserDataA store uid).1 = JsVal.null ∧
      (getUserDataB store uid).1 = JsVal.null) ∧
    getUserDataB store "" = (JsVal.null, []) ∧
    (getUserDataA store uid).2 = [Eff.fetchProfile] := by
  refine ⟨fun d h => ⟨?_, fun hne => ?_⟩, fun h => ⟨?_, ?_⟩,
    fun msg h => ⟨?_, ?_⟩, ?_, effs_getUserDataA store uid⟩
  · simp [getUserDataA, h]
  · simp [getUserDataB, h, hne]
  · simp [getUserDataA, h]
  · simp only [getUserDataB, h]
    split <;> rfl
  · simp [getUserDataA, h]
  · simp only [getUserDataB, h]
    split <;> rfl
  · simp [getUserDataB]

/-- Witness for the amended C7 at concrete stores and identifiers. -/
theorem claim7_getUserData_witness :
    (getUserDataA c2Store "u1").1 =
      JsVal.obj [("timetable", .obj [("mon", .str "math")])] ∧
    (getUserDataB c2Store "u1").1 =
      JsVal.obj [("timetable", .obj [("mon", .str "math")])] ∧
    (getUserDataA storeEmpty "u1").1 = JsVal.null ∧
    (getUserDataA storeFailing "u1").1 = JsVal.null ∧
    getUserDataB storeFailing "" = (JsVal.null, []) :=
  ⟨((claim7_getUserData c2Store "u1").1
      [("timetable", .obj [("mon", .str "math")])] rfl).1,
   ((claim7_getUserData c2Store "u1").1
      [("timetable", .obj [("mon", .str "math")])] rfl).2 (by decide),
   ((claim7_getUserData storeEmpty "u1").2.1 rfl).1,
   ((claim7_getUserData storeFailing "u1").2.2.1 "boom" rfl).1,
   (claim7_getUserData storeFailing "x").2.2.2.1⟩

/-! Order lemmas for the chat query's descending sort. -/

theorem tsLe_iff (a b : JsVal) :
    tsLe a b = true ↔
      tsRank a < tsRank b ∨ (tsRank a = tsRank b ∧ tsSub a ≤ tsSub b) := by
  unfold tsLe
  rcases Nat.lt_trichotomy (tsRank a) (tsRank b) with h | h | h
  · rw [if_pos h]
    simp [h]
  · rw [if_neg (by omega), if_neg (by omega)]
    simp [h]
  · rw [if_neg (by omega), if_pos h]
    simp
    omega

theorem tsLe_total (a b : JsVal) : tsLe a b = true ∨ tsLe b a = true := by
  rw [tsLe_iff, tsLe_iff]
  omega

theorem tsLe_trans (a b c : JsVal) (h1 : tsLe a b = true)
    (h2 : tsLe b c = true) : tsLe a c = true := by
  rw [tsLe_iff] at *
  omega

theorem mem_insertByTs (d : ChatDoc) (l : List ChatDoc) (x : ChatDoc) :
    x ∈ insertByTs d l ↔ x = d ∨ x ∈ l := by
  induction l with
  | nil => simp [insertByTs]
  | cons e rest ih =>
    rw [insertByTs]
    split
    · simp
    · simp only [List.mem_cons, ih]
      tauto

theorem pairwise_insertByTs (d : ChatDoc) (l : List ChatDoc)
    (h : List.Pairwise (fun a b => tsLe (docTs b) (docTs a) = true) l) :
    List.Pairwise (fun a b => tsLe (docTs b) (docTs a) = true)
      (insertByTs d l) := by
  induction l with
  | nil => simp [insertByTs]
  | cons e rest ih =>
    rcases List.pairwise_cons.mp h with ⟨he, hrest⟩
    rw [insertByTs]
    split
    · rename_i hle
      refine List.Pairwise.cons ?_ h
      intro x hx
      rcases List.mem_cons.mp hx with rfl | hx'
      · exact hle
      · exact tsLe_trans _ _ _ (he x hx') hle
    · rename_i hle
      refine List.Pairwise.cons ?_ (ih hrest)
      intro x hx
      rcases (mem_insertByTs d rest x).mp hx with rfl | hx'
      · rcases tsLe_total (docTs e) (docTs x) with h' | h'
        · exact absurd h' hle
        · exact h'
      · exact he x hx'

theorem pairwise_sortByTsDesc (ds : List ChatDoc) :
    List.Pairwise (fun a b => tsLe (docTs b) (docTs a) = true)
      (sortByTsDesc ds) := by
  induction ds with
  | nil => simp [sortByTsDesc]
  | cons d rest ih => exact pairwise_insertByTs d _ ih

/-- C5: the chat-history accessor yields at most 5 entries; the underlying
documents are those of the store's query — sorted newest-first
(descending) by the stored `timestamp` field, limited to 5 — and each is
projected to exactly the fields `message`, `isUser`, `timestamp`, the
timestamp converted via `toDate` and replaced by the current time
whenever the stored field is absent or not convertible. -/
theorem claim5_chat_history (store : Store) (uid : String) (now : Int) :
    (chatEntries store uid now).length ≤ 5 ∧
    (∀ ds, store.chatDocs uid = ChatFetch.docs ds →
      chatEntries store uid now =
        ((sortByTsDesc ds).take 5).map (projectChat now) ∧
      List.Pairwise (fun a b => tsLe (docTs b) (docTs a) = true)
        ((sortByTsDesc ds).take 5)) ∧
    (∀ d, (projectChat now d).map Prod.fst =
      ["message", "isUser", "timestamp"]) ∧
    (∀ d t, tsToDate (docTs d) = some t →
      getField (projectChat now d) "timestamp" = JsVal.time t) ∧
    (∀ d, tsToDate (docTs d) = none →
      getField (projectChat now d) "timestamp" = JsVal.time now) ∧
    (getChatHistory store uid now).1 =
      JsVal.arr ((chatEntries store uid now).map JsVal.obj) := by
  refine ⟨?_, fun ds h => ⟨?_, ?_⟩, fun d => rfl, fun d t h => ?_,
    fun d h => ?_, rfl⟩
  · unfold chatEntries
    split
    · simp
    · simp [Nat.min_le_left]
  · simp [chatEntries, h]
  · exact (pairwise_sortByTsDesc ds).sublist (List.take_sublist 5 _)
  · simp [projectChat, getField, h]
  · simp [projectChat, getField, h]

/-- Witness for C5 at a concrete six-document store. -/
theorem claim5_chat_history_witness :
    (chatEntries c5Store "u" 7).length ≤ 5 ∧
    chatEntries c5Store "u" 7 =
      ((sortByTsDesc c5Docs).take 5).map (projectChat 7) ∧
    List.Pairwise (fun a b => tsLe (docTs b) (docTs a) = true)
      ((sortByTsDesc c5Docs).take 5) ∧
    getField (projectChat 7
      [("message", JsVal.str "m1"), ("isUser", JsVal.bool true),
       ("timestamp", JsVal.time 100)]) "timestamp" = JsVal.time 100 ∧
    getField (projectChat 7
      [("message", JsVal.str "m3"), ("isUser", JsVal.bool true)])
      "timestamp" = JsVal.time 7 :=
  ⟨(claim5_chat_history c5Store "u" 7).1,
   ((claim5_chat_history c5Store "u" 7).2.1 c5Docs rfl).1,
   ((claim5_chat_history c5Store "u" 7).2.1 c5Docs rfl).2,
   (claim5_chat_history c5Store "u" 7).2.2.2.1 _ 100 rfl,
   (claim5_chat_history c5Store "u" 7).2.2.2.2.1 _ rfl⟩

/-- Counterexample to C6 as stated: with a stored profile lacking
`course`, `current_semester` and `total_semesters`, the profile object in
the serialized 200 response contains only `nickname` — fewer than the
four whitelisted fields (their `undefined` values are dropped by JSON
serialization), though never any extra field. -/
theorem claim6_profile_whitelist_cx :
    (askHandlerA c6Env "u1" c6Body).resp.status = 200 ∧
    objKeys (jsProp (toWire (askHandlerA c6Env "u1" c6Body).resp.body)
      "profile") = ["nickname"] :=
  ⟨rfl, rfl⟩

/-- C6 (amended): the serialized reduced profile contains at most the four
whitelisted fields — never any other stored field — and exactly those of
the four that are present in the stored document; it is `{}` when the
profile is `null`; and on every 200 response the echoed `profile` is this
reduced profile. -/
theorem claim6_profile_whitelist (p : JsVal) (env : AskEnv) (uid : String)
    (body : List (String × JsVal)) :
    objKeys (toWire (formatProfile p)) ⊆ profileWhitelist ∧
    (∀ fs, p = JsVal.obj fs →
      objKeys (toWire (formatProfile p)) =
        profileWhitelist.filter (fun k => !(isUndef (getField fs k)))) ∧
    (p = JsVal.null → formatProfile p = JsVal.obj []) ∧
    ((askHandlerA env uid body).resp.status = 200 →
      jsProp (askHandlerA env uid body).resp.body "profile" =
        formatProfile (getUserDataA env.store uid).1) ∧
    ((askHandlerB env uid body).resp.status = 200 →
      jsProp (askHandlerB env uid body).resp.body "profile" =
        formatProfile (getUserDataB env.store uid).1) := by
  refine ⟨?_, fun fs hp => ?_, fun hp => by rw [hp]; rfl, ?_, ?_⟩
  · by_cases ht : jsTruthy p = true
    · by_cases h1 : isUndef (jsProp p "nickname") = true <;>
        by_cases h2 : isUndef (jsProp p "course") = true <;>
        by_cases h3 : isUndef (jsProp p "current_semester") = true <;>
        by_cases h4 : isUndef (jsProp p "total_semesters") = true <;>
        simp [formatProfile, ht, toWire, toWireObj, objKeys,
          profileWhitelist, h1, h2, h3, h4]
    · simp [formatProfile, ht, toWire, toWireObj, objKeys]
  · subst hp
    by_cases h1 : isUndef (getField fs "nickname") = true <;>
      by_cases h2 : isUndef (getField fs "course") = true <;>
      by_cases h3 : isUndef (getField fs "current_semester") = true <;>
      by_cases h4 : isUndef (getField fs "total_semesters") = true <;>
      simp [formatProfile, jsTruthy, jsProp, toWire, toWireObj, objKeys,
        profileWhitelist, h1, h2, h3, h4]
  · by_cases hq : jsTruthy (getField body "query") = true
    · simp only [askHandlerA, hq]
      simp only [Bool.true_eq_false, if_false]
      rcases env.completion with r | msg
      · rcases hx : extractAnswer r with msg | a <;>
          simp [hx, aiFailure, jsProp, getField]
      · simp [aiFailure]
    · have hq2 : jsTruthy (getField body "query") = false := by
        simpa using hq
      simp [askHandlerA, hq2]
  · by_cases hq : jsTruthy (getField body "query") = true
    · simp only [askHandlerB, hq]
      simp only [Bool.true_eq_false, if_false]
      rcases env.completion with r | msg
      · rcases hx : extractAnswer r with msg | a <;>
          simp [hx, aiFailure, jsProp, getField]
      · simp [aiFailure]
    · have hq2 : jsTruthy (getField body "query") = false := by
        simpa using hq
      simp [askHandlerB, hq2]

/-- Witness for the amended C6 at concrete profiles and a concrete
request. -/
theorem claim6_profile_whitelist_witness :
    objKeys (toWire (formatProfile
      (JsVal.obj [("nickname", JsVal.str "Sam"), ("extra", JsVal.str "x")]))) =
      profileWhitelist.filter (fun k =>
        !(isUndef (getField
          [("nickname", JsVal.str "Sam"), ("extra", JsVal.str "x")] k))) ∧
    formatProfile JsVal.null = JsVal.obj [] ∧
    jsProp (askHandlerA c6Env "u1" c6Body).resp.body "profile" =
      formatProfile (getUserDataA c6Env.store "u1").1 :=
  ⟨(claim6_profile_whitelist
      (JsVal.obj [("nickname", JsVal.str "Sam"), ("extra", JsVal.str "x")])
      c6Env "u1" c6Body).2.1 _ rfl,
   (claim6_profile_whitelist JsVal.null c6Env "u1" c6Body).2.2.1 rfl,
   (claim6_profile_whitelist JsVal.null c6Env "u1" c6Body).2.2.2.1 rfl⟩

theorem oio_here (p : String) (ps : List String) (b : String)
    (h : occursInOrderFrom ps b) : occursInOrderFrom (p :: ps) (p ++ b) :=
  ⟨"", b, (String.empty_append _).symm, h⟩

theorem oio_last (p : String) : occursInOrderFrom [p] p :=
  ⟨"", "", by rw [String.empty_append, String.append_empty], trivial⟩

set_option maxRecDepth 8192 in
/-- C8 (amended): the `server.js` prompt contains, in order, the Uganda
date/time block with the rendered current time, the ISO-8601 timestamp,
each data category serialized as formatted JSON, and the explicit rules;
the `part_000` prompt contains the categories and rules in order but no
date/time block at all. -/
theorem claim8_system_prompt (ug iso : String)
    (p t e g u c : JsVal) :
    occursInOrderFrom
      ["\nYou are REMI — a friendly academic assistant.\n\nYou may use the user’s academic data **only if their question is academic**.\n\nFor general questions (life, science, date, time, advice, etc.) answer normally.\n\n📌 **Current Date & Time Info (Uganda):**\n- Full Date & Time: ",
       ug, "\n- ISO: ", iso,
       "\n\n📌 USER DATA (only use if relevant):\nPROFILE: ", stringify p,
       "\nTIMETABLE: ", stringify t,
       "\nEXAMS: ", stringify e,
       "\nGPA: ", stringify g,
       "\nCOURSE UNITS: ", stringify u,
       "\nRECENT CHATS: ", stringify c,
       "\n\nRULES:\n1. If data is missing, say it\x27s unavailable.\n2. Do NOT invent academic information.\n3. Keep answers short (1–3 paragraphs).\n4. Friendly & helpful tone.\n"]
      (systemPromptA ug iso p t e g u c) ∧
    occursInOrderFrom
      ["\nYou are REMI — an intelligent student assistant.\nUse only the following data to answer the user\x27s question.\nNever make up information.\n\nPROFILE:\n",
       stringify p,
       "\n\nTIMETABLE:\n", stringify t,
       "\n\nEXAMS:\n", stringify e,
       "\n\nGPA:\n", stringify g,
       "\n\nCOURSE UNITS:\n", stringify u,
       "\n\nRECENT CHATS:\n", stringify c,
       "\n\nRULES:\n1. If data is missing, politely say you don\x27t have that information.\n2. Never invent information.\n3. Keep answers short (1–3 paragraphs).\n4. Friendly and helpful tone.\n"]
      (systemPromptB p t e g u c) := by
  constructor
  · unfold systemPromptA
    repeat
      first
        | exact oio_last _
        | apply oio_here
  · unfold systemPromptB
    repeat
      first
        | exact oio_last _
        | apply oio_here

set_option maxRecDepth 100000 in
/-- Counterexample to C8 as stated: in the `part_000` variant a
successful request's system prompt contains neither the request's
ISO-8601 timestamp nor any Uganda date/time block. -/
theorem claim8_system_prompt_cx :
    (askHandlerB c8Env "u1" c6Body).resp.status = 200 ∧
    Option.map (fun r => hasSubstr r.systemContent "2026-10-11T00:00:00.000Z")
      (askHandlerB c8Env "u1" c6Body).sentReq = some false ∧
    Option.map (fun r => hasSubstr r.systemContent "Current Date & Time")
      (askHandlerB c8Env "u1" c6Body).sentReq = some false :=
  ⟨rfl, rfl, rfl⟩
